import Mathlib

/-!
Verification of the FFMC (Fine Fuel Moisture Code) kernel.

The repository contains a single numerical kernel: a one-day FFMC update
(Van Wagner 1987) `_ffmc_one_step` and a sequential series driver
`ffmc_series` that folds the update over a chronologically ordered list of
daily weather observations.  The definitions below are a shallow embedding
of that code over the real numbers: each Lean definition mirrors one stage
of the Python function, stage by stage, with `Real.exp`, `Real.sqrt` and
real exponentiation standing for `np.exp`, `np.sqrt` and `**`.
-/

namespace FFMC

open Real

/-- Stage 1 of `_ffmc_one_step`:
`po = (147.2 * (101.0 - ff_prev)) / (59.5 + ff_prev)`. -/
noncomputable def po_of (ff_prev : ℝ) : ℝ :=
  147.2 * (101 - ff_prev) / (59.5 + ff_prev)

/-- Stage 2 of `_ffmc_one_step` (rainfall adjustment): when `r > 0.5`,
`rf = r - 0.5` and
`mo = po + 42.5*rf*exp(-100/(251-po))*(1-exp(-6.93/rf)) + 0.0015*(po-150)^2*sqrt(rf)`,
then `if mo > 250: mo = 250`; otherwise `mo = po`. -/
noncomputable def rain_mo (r po : ℝ) : ℝ :=
  if r > 0.5 then
    let rf := r - 0.5
    let mo := po + 42.5 * rf * Real.exp (-100 / (251 - po))
        * (1 - Real.exp (-6.93 / rf))
      + 0.0015 * (po - 150) ^ 2 * Real.sqrt rf
    if mo > 250 then 250 else mo
  else po

/-- Stage 3 of `_ffmc_one_step`:
`if rh > 100: rh = 100 elif rh < 0: rh = 0`. -/
noncomputable def clamp_rh (rh : ℝ) : ℝ :=
  if rh > 100 then 100 else if rh < 0 then 0 else rh

/-- Drying equilibrium moisture content `ed` from stage 4 of
`_ffmc_one_step`:
`ed = 0.942*rh**0.679 + 11*exp((rh-100)/10) + 0.18*(21.1-t)*(1-exp(-0.115*rh))`. -/
noncomputable def ed_of (rh t : ℝ) : ℝ :=
  0.942 * rh ^ (0.679 : ℝ) + 11 * Real.exp ((rh - 100) / 10)
    + 0.18 * (21.1 - t) * (1 - Real.exp (-0.115 * rh))

/-- Wetting equilibrium moisture content `ew` from stage 4 of
`_ffmc_one_step`:
`ew = 0.618*rh**0.753 + 10*exp((rh-100)/10) + 0.18*(21.1-t)*(1-exp(-0.115*rh))`. -/
noncomputable def ew_of (rh t : ℝ) : ℝ :=
  0.618 * rh ^ (0.753 : ℝ) + 10 * Real.exp ((rh - 100) / 10)
    + 0.18 * (21.1 - t) * (1 - Real.exp (-0.115 * rh))

/-- Drying-branch log rate `kl` from stage 4 of `_ffmc_one_step`:
`kl = 0.424*(1-(rh/100)**1.7) + 0.0694*sqrt(w)*(1-(rh/100)**8)`. -/
noncomputable def kl_dry (rh w : ℝ) : ℝ :=
  0.424 * (1 - (rh / 100) ^ (1.7 : ℝ))
    + 0.0694 * Real.sqrt w * (1 - (rh / 100) ^ 8)

/-- Wetting-branch log rate `kl` from stage 4 of `_ffmc_one_step`:
`kl = 0.424*(1-((100-rh)/100)**1.7) + 0.0694*sqrt(w)*(1-((100-rh)/100)**8)`. -/
noncomputable def kl_wet (rh w : ℝ) : ℝ :=
  0.424 * (1 - ((100 - rh) / 100) ^ (1.7 : ℝ))
    + 0.0694 * Real.sqrt w * (1 - ((100 - rh) / 100) ^ 8)

/-- Rate-constant conversion from stage 4 of `_ffmc_one_step`:
`kw = kl * 0.581 * exp(0.0365 * t)`. -/
noncomputable def kw_of (kl t : ℝ) : ℝ :=
  kl * 0.581 * Real.exp (0.0365 * t)

/-- Stage 4 of `_ffmc_one_step` (drying/wetting branch): compares `mo`
with `ed`; the drying branch gives `m = ed - (ed - mo)*10**(-kw)` with the
dry-side `kl`, the wetting branch gives `m = ew + (mo - ew)*10**(-kw)` with
the wet-side `kl`. -/
noncomputable def m_stage (mo rh t w : ℝ) : ℝ :=
  if mo < ed_of rh t then
    ed_of rh t - (ed_of rh t - mo) * (10 : ℝ) ^ (-(kw_of (kl_dry rh w) t))
  else
    ew_of rh t + (mo - ew_of rh t) * (10 : ℝ) ^ (-(kw_of (kl_wet rh w) t))

/-- Stage 5 of `_ffmc_one_step`: back-transform
`ffmc = (59.5 * (250 - m)) / (147.2 + m)`. -/
noncomputable def back (m : ℝ) : ℝ :=
  59.5 * (250 - m) / (147.2 + m)

/-- One-day FFMC update `_ffmc_one_step(t, rh, w, r, ff_prev)`: the five
stages composed exactly as in the source, ending in
`max(min(ffmc, 101.0), 0.0)`. -/
noncomputable def _ffmc_one_step (t rh w r ff_prev : ℝ) : ℝ :=
  max (min (back (m_stage (rain_mo r (po_of ff_prev)) (clamp_rh rh) t w)) 101) 0

/-- A daily observation row: the four columns `ffmc_series` reads. -/
structure Obs where
  temp_13LT_C : ℝ
  rh_avg_pc : ℝ
  wind_avg_kmh : ℝ
  rain_mm : ℝ

instance : Inhabited Obs := ⟨⟨0, 0, 0, 0⟩⟩

/-- The single call `ffmc_series` makes per row:
`_ffmc_one_step(row.temp_13LT_C, row.rh_avg_pc, row.wind_avg_kmh, row.rain_mm, ff_prev)`. -/
noncomputable def obs_step (o : Obs) (ff_prev : ℝ) : ℝ :=
  _ffmc_one_step o.temp_13LT_C o.rh_avg_pc o.wind_avg_kmh o.rain_mm ff_prev

/-- `ffmc_series(df, init_ffmc=85.0)`: iterate `_ffmc_one_step` over the
rows in order, storing each result and carrying it forward as `ff_prev`
for the next row. -/
noncomputable def ffmc_series (df : List Obs) (init_ffmc : ℝ := 85.0) : List ℝ :=
  match df with
  | [] => []
  | o :: rest => obs_step o init_ffmc :: ffmc_series rest (obs_step o init_ffmc)

/-! ### Helper lemmas about the individual stages -/

/-- The rain branch of `rain_mo` is the raw absorption formula clamped to
250 from above, i.e. a `min` with 250. -/
lemma rain_mo_eq_min {r : ℝ} (po : ℝ) (h : 0.5 < r) :
    rain_mo r po
      = min (po + 42.5 * (r - 0.5) * Real.exp (-100 / (251 - po))
            * (1 - Real.exp (-6.93 / (r - 0.5)))
          + 0.0015 * (po - 150) ^ 2 * Real.sqrt (r - 0.5)) 250 := by
  simp only [rain_mo]
  rw [if_pos h]
  by_cases h2 : po + 42.5 * (r - 0.5) * Real.exp (-100 / (251 - po))
        * (1 - Real.exp (-6.93 / (r - 0.5)))
      + 0.0015 * (po - 150) ^ 2 * Real.sqrt (r - 0.5) > 250
  · rw [if_pos h2, eq_comm]
    exact min_eq_right h2.le
  · rw [if_neg h2, eq_comm]
    exact min_eq_left (not_lt.1 h2)

/-- With at most 0.5 mm of rain the rain stage is the identity. -/
lemma rain_mo_no_rain {r : ℝ} (po : ℝ) (h : r ≤ 0.5) : rain_mo r po = po := by
  simp only [rain_mo]
  rw [if_neg (not_lt.2 h)]

/-- Humidity readings at or above 100 clamp to 100. -/
lemma clamp_rh_of_ge {rh : ℝ} (h : 100 ≤ rh) : clamp_rh rh = 100 := by
  unfold clamp_rh
  by_cases h1 : rh > 100
  · rw [if_pos h1]
  · rw [if_neg h1, if_neg (by linarith : ¬ rh < 0)]
    exact le_antisymm (not_lt.1 h1) h

/-- Humidity readings at or below 0 clamp to 0. -/
lemma clamp_rh_of_le {rh : ℝ} (h : rh ≤ 0) : clamp_rh rh = 0 := by
  unfold clamp_rh
  rw [if_neg (by linarith : ¬ rh > 100)]
  by_cases h2 : rh < 0
  · rw [if_pos h2]
  · rw [if_neg h2]
    exact le_antisymm h (not_lt.1 h2)

/-- The series driver on a nonempty list: first output, by unfolding. -/
lemma ffmc_series_cons (o : Obs) (rest : List Obs) (seed : ℝ) :
    ffmc_series (o :: rest) seed
      = obs_step o seed :: ffmc_series rest (obs_step o seed) := rfl

/-- The series output has one entry per observation. -/
lemma ffmc_series_length (df : List Obs) (seed : ℝ) :
    (ffmc_series df seed).length = df.length := by
  induction df generalizing seed with
  | nil => rfl
  | cons o rest ih => simp [ffmc_series_cons, ih]

/-- Head of the series output on a nonempty list. -/
lemma ffmc_series_head (df : List Obs) (seed : ℝ) (h : 0 < df.length) :
    (ffmc_series df seed).getD 0 0 = obs_step (df.getD 0 default) seed := by
  cases df with
  | nil => simp at h
  | cons o rest => rfl

/-- Step-to-step recurrence of the series output. -/
lemma ffmc_series_succ (df : List Obs) (seed : ℝ) :
    ∀ i, i + 1 < df.length →
      (ffmc_series df seed).getD (i + 1) 0
        = obs_step (df.getD (i + 1) default) ((ffmc_series df seed).getD i 0) := by
  induction df generalizing seed with
  | nil => intro i hi; simp at hi
  | cons o rest ih =>
    intro i hi
    cases i with
    | zero =>
      have hrest : 0 < rest.length := by
        simpa using hi
      rw [ffmc_series_cons]
      simpa using ffmc_series_head rest (obs_step o seed) hrest
    | succ j =>
      have hj : j + 1 < rest.length := by
        simpa using hi
      rw [ffmc_series_cons]
      simpa using ih (obs_step o seed) j hj

/-- The rain-absorption gain `x * (1 - exp(-6.93/x))` is monotone on
`x > 0`: convexity of `exp` between `-6.93/x1` and `0` gives
`1 - exp(-6.93/x2) >= (x1/x2) * (1 - exp(-6.93/x1))`. -/
lemma rain_gain_mono {x1 x2 : ℝ} (h0 : 0 < x1) (h12 : x1 ≤ x2) :
    x1 * (1 - Real.exp (-6.93 / x1)) ≤ x2 * (1 - Real.exp (-6.93 / x2)) := by
  have hx2 : 0 < x2 := lt_of_lt_of_le h0 h12
  have ht0 : 0 < x1 / x2 := div_pos h0 hx2
  have ht1 : x1 / x2 ≤ 1 := (div_le_one hx2).2 h12
  have hconv := convexOn_exp.2 (Set.mem_univ (-6.93 / x1)) (Set.mem_univ (0 : ℝ))
      (le_of_lt ht0) (by linarith : (0:ℝ) ≤ 1 - x1 / x2) (by ring)
  simp only [smul_eq_mul, mul_zero, add_zero, Real.exp_zero, mul_one] at hconv
  have harg : x1 / x2 * (-6.93 / x1) = -6.93 / x2 := by
    field_simp
    ring
  rw [harg] at hconv
  have hkey : x1 / x2 * (1 - Real.exp (-6.93 / x1)) ≤ 1 - Real.exp (-6.93 / x2) := by
    nlinarith [hconv]
  have hmul := mul_le_mul_of_nonneg_left hkey (le_of_lt hx2)
  calc x1 * (1 - Real.exp (-6.93 / x1))
      = x2 * (x1 / x2 * (1 - Real.exp (-6.93 / x1))) := by
        field_simp
    _ ≤ x2 * (1 - Real.exp (-6.93 / x2)) := hmul

/-- The rain stage is monotone non-decreasing in the rainfall once past the
0.5 mm interception threshold. -/
lemma rain_mo_mono {po r1 r2 : ℝ} (h1 : 0.5 < r1) (h12 : r1 ≤ r2) :
    rain_mo r1 po ≤ rain_mo r2 po := by
  have h2 : 0.5 < r2 := lt_of_lt_of_le h1 h12
  rw [rain_mo_eq_min po h1, rain_mo_eq_min po h2]
  refine min_le_min ?_ le_rfl
  have hx0 : 0 < r1 - 0.5 := by linarith
  have hx12 : r1 - 0.5 ≤ r2 - 0.5 := by linarith
  have hg := rain_gain_mono hx0 hx12
  have hE : (0:ℝ) ≤ 42.5 * Real.exp (-100 / (251 - po)) := by positivity
  have hA := mul_le_mul_of_nonneg_left hg hE
  have hs := Real.sqrt_le_sqrt hx12
  have hC : (0:ℝ) ≤ 0.0015 * (po - 150) ^ 2 := by positivity
  have hB := mul_le_mul_of_nonneg_left hs hC
  nlinarith [hA, hB]

/-- Above the interception threshold, and as long as `po` is below the
250 ceiling, the rain stage strictly increases the moisture. -/
lemma lt_rain_mo {po r : ℝ} (h : 0.5 < r) (hpo : po < 250) :
    po < rain_mo r po := by
  rw [rain_mo_eq_min po h]
  have hx0 : 0 < r - 0.5 := by linarith
  have hE : 0 < Real.exp (-100 / (251 - po)) := Real.exp_pos _
  have he1 : Real.exp (-6.93 / (r - 0.5)) < 1 :=
    Real.exp_lt_one_iff.2 (by
      have hq : 0 < 6.93 / (r - 0.5) := div_pos (by norm_num) hx0
      have : -6.93 / (r - 0.5) = -(6.93 / (r - 0.5)) := by ring
      rw [this]
      linarith)
  have hA : 0 < 42.5 * (r - 0.5) * Real.exp (-100 / (251 - po))
      * (1 - Real.exp (-6.93 / (r - 0.5))) :=
    mul_pos (mul_pos (mul_pos (by norm_num) hx0) hE) (by linarith)
  have hB : 0 ≤ 0.0015 * (po - 150) ^ 2 * Real.sqrt (r - 0.5) := by positivity
  exact lt_min (by linarith) hpo

/-- The wetting branch of stage 4, written out. -/
lemma m_stage_of_not_lt {mo rh t w : ℝ} (h : ¬ mo < ed_of rh t) :
    m_stage mo rh t w
      = ew_of rh t + (mo - ew_of rh t) * (10 : ℝ) ^ (-(kw_of (kl_wet rh w) t)) := by
  unfold m_stage
  rw [if_neg h]

/-! ### Numeric bounds for the concrete check at `t=20, rh=45, w=10, ff_prev=85` -/

lemma po85_bounds : 16.29 ≤ po_of 85 ∧ po_of 85 ≤ 16.3 := by
  unfold po_of
  constructor <;> norm_num

lemma rpow_45_679_le : (45 : ℝ) ^ (0.679 : ℝ) ≤ 15 := by
  have h1 : (45 : ℝ) ^ (0.679 : ℝ) ≤ (45 : ℝ) ^ (0.7 : ℝ) :=
    Real.rpow_le_rpow_of_exponent_le (by norm_num) (by norm_num)
  have h2 : (45 : ℝ) ^ (0.7 : ℝ) = ((45 : ℝ) ^ (7 : ℕ)) ^ ((1 : ℝ) / 10) := by
    rw [← Real.rpow_natCast 45 7, ← Real.rpow_mul (by norm_num : (0:ℝ) ≤ 45)]
    congr 1
    norm_num
  have h3 : ((45 : ℝ) ^ (7 : ℕ)) ^ ((1 : ℝ) / 10) ≤ ((15 : ℝ) ^ (10 : ℕ)) ^ ((1 : ℝ) / 10) := by
    apply Real.rpow_le_rpow (by positivity) (by norm_num) (by norm_num)
  have h4 : ((15 : ℝ) ^ (10 : ℕ)) ^ ((1 : ℝ) / 10) = 15 := by
    rw [← Real.rpow_natCast 15 10, ← Real.rpow_mul (by norm_num : (0:ℝ) ≤ 15)]
    norm_num
  calc (45 : ℝ) ^ (0.679 : ℝ) ≤ (45 : ℝ) ^ (0.7 : ℝ) := h1
    _ = ((45 : ℝ) ^ (7 : ℕ)) ^ ((1 : ℝ) / 10) := h2
    _ ≤ ((15 : ℝ) ^ (10 : ℕ)) ^ ((1 : ℝ) / 10) := h3
    _ = 15 := h4

lemma rpow_45_753_le : (45 : ℝ) ^ (0.753 : ℝ) ≤ 22 := by
  have h1 : (45 : ℝ) ^ (0.753 : ℝ) ≤ (45 : ℝ) ^ (0.8 : ℝ) :=
    Real.rpow_le_rpow_of_exponent_le (by norm_num) (by norm_num)
  have h2 : (45 : ℝ) ^ (0.8 : ℝ) = ((45 : ℝ) ^ (4 : ℕ)) ^ ((1 : ℝ) / 5) := by
    rw [← Real.rpow_natCast 45 4, ← Real.rpow_mul (by norm_num : (0:ℝ) ≤ 45)]
    congr 1
    norm_num
  have h3 : ((45 : ℝ) ^ (4 : ℕ)) ^ ((1 : ℝ) / 5) ≤ ((22 : ℝ) ^ (5 : ℕ)) ^ ((1 : ℝ) / 5) := by
    apply Real.rpow_le_rpow (by positivity) (by norm_num) (by norm_num)
  have h4 : ((22 : ℝ) ^ (5 : ℕ)) ^ ((1 : ℝ) / 5) = 22 := by
    rw [← Real.rpow_natCast 22 5, ← Real.rpow_mul (by norm_num : (0:ℝ) ≤ 22)]
    norm_num
  calc (45 : ℝ) ^ (0.753 : ℝ) ≤ (45 : ℝ) ^ (0.8 : ℝ) := h1
    _ = ((45 : ℝ) ^ (4 : ℕ)) ^ ((1 : ℝ) / 5) := h2
    _ ≤ ((22 : ℝ) ^ (5 : ℕ)) ^ ((1 : ℝ) / 5) := h3
    _ = 22 := h4

lemma rpow_45_753_ge : (6 : ℝ) ≤ (45 : ℝ) ^ (0.753 : ℝ) := by
  have h1 : (45 : ℝ) ^ (0.5 : ℝ) ≤ (45 : ℝ) ^ (0.753 : ℝ) :=
    Real.rpow_le_rpow_of_exponent_le (by norm_num) (by norm_num)
  have h2 : ((36 : ℝ)) ^ (0.5 : ℝ) ≤ (45 : ℝ) ^ (0.5 : ℝ) :=
    Real.rpow_le_rpow (by norm_num) (by norm_num) (by norm_num)
  have h3 : ((36 : ℝ)) ^ (0.5 : ℝ) = 6 := by
    have h36 : (36 : ℝ) = (6 : ℝ) ^ (2 : ℕ) := by norm_num
    rw [h36, ← Real.rpow_natCast 6 2, ← Real.rpow_mul (by norm_num : (0:ℝ) ≤ 6)]
    norm_num
  linarith

lemma exp_5_5_ge : (14 : ℝ) ≤ Real.exp 5.5 := by
  have h : Real.exp 5.5 = Real.exp 2.75 * Real.exp 2.75 := by
    rw [← Real.exp_add]
    norm_num
  have h2 : (3.75 : ℝ) ≤ Real.exp 2.75 := by
    have := Real.add_one_le_exp (2.75 : ℝ)
    linarith
  nlinarith [h2]

lemma exp_m55_le : Real.exp (((45 : ℝ) - 100) / 10) ≤ 1 / 14 := by
  have harg : ((45 : ℝ) - 100) / 10 = -5.5 := by norm_num
  rw [harg, show (-5.5 : ℝ) = -(5.5 : ℝ) by norm_num, Real.exp_neg, one_div]
  exact inv_anti₀ (by norm_num) exp_5_5_ge

lemma ed_45_20_le : ed_of 45 20 ≤ 15.2 := by
  unfold ed_of
  have h1 := rpow_45_679_le
  have h2 := exp_m55_le
  have h3 : 0 < Real.exp (-0.115 * 45) := Real.exp_pos _
  nlinarith [h1, h2, h3]

lemma ew_45_20_le : ew_of 45 20 ≤ 14.6 := by
  unfold ew_of
  have h1 := rpow_45_753_le
  have h2 := exp_m55_le
  have h3 : 0 < Real.exp (-0.115 * 45) := Real.exp_pos _
  nlinarith [h1, h2, h3]

lemma ew_45_20_ge : (3 : ℝ) ≤ ew_of 45 20 := by
  unfold ew_of
  have h1 := rpow_45_753_ge
  have h2 : 0 < Real.exp (((45 : ℝ) - 100) / 10) := Real.exp_pos _
  have h3 : Real.exp (-0.115 * 45) ≤ 1 :=
    Real.exp_le_one_iff.2 (by norm_num)
  nlinarith [h1, h2, h3]

lemma kl_wet_45_10_nonneg : 0 ≤ kl_wet 45 10 := by
  unfold kl_wet
  have ha : (((100 : ℝ) - 45) / 100) ^ (1.7 : ℝ) ≤ 1 :=
    Real.rpow_le_one (by norm_num) (by norm_num) (by norm_num)
  have hb : (((100 : ℝ) - 45) / 100) ^ (8 : ℕ) ≤ 1 := by norm_num
  have hs : 0 ≤ Real.sqrt 10 := Real.sqrt_nonneg _
  have h2 : 0 ≤ 0.0694 * Real.sqrt 10 * (1 - ((100 : ℝ) - 45) / 100 ^ (8 : ℕ)) := by
    exact mul_nonneg (mul_nonneg (by norm_num) hs) (by norm_num)
  nlinarith [ha, hb, hs, mul_nonneg (mul_nonneg (by norm_num : (0:ℝ) ≤ 0.0694) hs)
    (by linarith : 0 ≤ 1 - (((100 : ℝ) - 45) / 100) ^ (8 : ℕ))]

lemma kw_45_nonneg : 0 ≤ kw_of (kl_wet 45 10) 20 := by
  unfold kw_of
  exact mul_nonneg (mul_nonneg kl_wet_45_10_nonneg (by norm_num))
    (Real.exp_pos _).le

/-! ### `back` estimates -/

lemma back_lt_back {a b : ℝ} (ha : 0 < 147.2 + a) (hab : a < b) :
    back b < back a := by
  have hb : 0 < 147.2 + b := by linarith
  unfold back
  rw [div_lt_div_iff₀ hb ha]
  nlinarith [hab]

lemma back_le_101 {a : ℝ} (h3 : 0.05 ≤ a) : back a ≤ 101 := by
  unfold back
  rw [div_le_iff₀ (by linarith : (0:ℝ) < 147.2 + a)]
  nlinarith

lemma back_nonneg {a : ℝ} (h0 : 0 ≤ a) (h250 : a ≤ 250) : 0 ≤ back a := by
  unfold back
  apply div_nonneg _ (by linarith)
  nlinarith

/-- Concrete check: at `t=20, rh=45, w=10, ff_prev=85` the update with 5 mm
of rain differs from the update with no rain.  Both inputs land in the
wetting branch, the rain stage strictly raises `mo`, hence `m`, and the
back-transform is strictly decreasing on the range involved; neither final
clamp bites. -/
lemma concrete_rain_effect :
    _ffmc_one_step 20 45 10 5 85 ≠ _ffmc_one_step 20 45 10 0 85 := by
  have hpo1 : (16.29 : ℝ) ≤ po_of 85 := po85_bounds.1
  have hpo2 : po_of 85 ≤ 16.3 := po85_bounds.2
  have hmo0 : rain_mo 0 (po_of 85) = po_of 85 := rain_mo_no_rain _ (by norm_num)
  have hmo5le : rain_mo 5 (po_of 85) ≤ 250 := by
    rw [rain_mo_eq_min (po_of 85) (by norm_num)]
    exact min_le_right _ _
  have hmo5gt : po_of 85 < rain_mo 5 (po_of 85) :=
    lt_rain_mo (by norm_num) (by linarith)
  have hcl : clamp_rh 45 = 45 := by
    unfold clamp_rh
    rw [if_neg (by norm_num), if_neg (by norm_num)]
  have hed : ed_of 45 20 ≤ po_of 85 := by linarith [ed_45_20_le]
  have hewle : ew_of 45 20 ≤ po_of 85 := by linarith [ew_45_20_le]
  have hew3 : (3 : ℝ) ≤ ew_of 45 20 := ew_45_20_ge
  have hθpos : 0 < (10 : ℝ) ^ (-(kw_of (kl_wet 45 10) 20)) :=
    Real.rpow_pos_of_pos (by norm_num) _
  have hθle1 : (10 : ℝ) ^ (-(kw_of (kl_wet 45 10) 20)) ≤ 1 :=
    Real.rpow_le_one_of_one_le_of_nonpos (by norm_num) (neg_nonpos.2 kw_45_nonneg)
  have hm0 : m_stage (rain_mo 0 (po_of 85)) 45 20 10
      = ew_of 45 20
        + (po_of 85 - ew_of 45 20) * (10 : ℝ) ^ (-(kw_of (kl_wet 45 10) 20)) := by
    rw [hmo0]
    exact m_stage_of_not_lt (not_lt.2 hed)
  have hm5 : m_stage (rain_mo 5 (po_of 85)) 45 20 10
      = ew_of 45 20
        + (rain_mo 5 (po_of 85) - ew_of 45 20)
          * (10 : ℝ) ^ (-(kw_of (kl_wet 45 10) 20)) :=
    m_stage_of_not_lt (not_lt.2 (le_trans hed hmo5gt.le))
  have hm0ge : (3 : ℝ) ≤ m_stage (rain_mo 0 (po_of 85)) 45 20 10 := by
    rw [hm0]
    have hq := mul_nonneg (by linarith : (0:ℝ) ≤ po_of 85 - ew_of 45 20) hθpos.le
    linarith
  have hm5le : m_stage (rain_mo 5 (po_of 85)) 45 20 10 ≤ 250 := by
    rw [hm5]
    have hq := mul_le_of_le_one_right
      (by linarith : (0:ℝ) ≤ rain_mo 5 (po_of 85) - ew_of 45 20) hθle1
    linarith
  have hlt : m_stage (rain_mo 0 (po_of 85)) 45 20 10
      < m_stage (rain_mo 5 (po_of 85)) 45 20 10 := by
    rw [hm0, hm5]
    have hq := mul_lt_mul_of_pos_right
      (by linarith : po_of 85 - ew_of 45 20 < rain_mo 5 (po_of 85) - ew_of 45 20)
      hθpos
    linarith
  have hb101 : back (m_stage (rain_mo 0 (po_of 85)) 45 20 10) ≤ 101 :=
    back_le_101 (by linarith)
  have hbgt : back (m_stage (rain_mo 5 (po_of 85)) 45 20 10)
      < back (m_stage (rain_mo 0 (po_of 85)) 45 20 10) :=
    back_lt_back (by linarith) hlt
  have hb0 : 0 ≤ back (m_stage (rain_mo 5 (po_of 85)) 45 20 10) :=
    back_nonneg (by linarith) hm5le
  have e5 : _ffmc_one_step 20 45 10 5 85
      = back (m_stage (rain_mo 5 (po_of 85)) 45 20 10) := by
    unfold _ffmc_one_step
    rw [hcl, min_eq_left (by linarith), max_eq_left (by linarith)]
  have e0 : _ffmc_one_step 20 45 10 0 85
      = back (m_stage (rain_mo 0 (po_of 85)) 45 20 10) := by
    unfold _ffmc_one_step
    rw [hcl, min_eq_left hb101, max_eq_left (by linarith)]
  rw [e5, e0]
  exact ne_of_lt hbgt

/-! ### C1: the one-step update is clamped into [0, 101] -/

/-- C1.  For every real inputs `t`, `rh`, `w`, `r`, `ffmc_prev`, the single
step `_ffmc_one_step` back-transforms `m` through
`59.5 * (250 - m) / (147.2 + m)` and clamps to [0, 101], so its output lies
in the closed interval [0, 101]. -/
theorem claim1_update_in_unit_interval (t rh w r ff : ℝ) :
    0 ≤ _ffmc_one_step t rh w r ff ∧ _ffmc_one_step t rh w r ff ≤ 101
      ∧ _ffmc_one_step t rh w r ff
        = max (min (back (m_stage (rain_mo r (po_of ff)) (clamp_rh rh) t w)) 101) 0 :=
  ⟨le_max_right _ _, max_le (min_le_right _ _) (by norm_num), rfl⟩

/-! ### C2: the series driver chains the one-step update -/

/-- C2.  For every observation list and seed, the series driver returns a
list of exactly the same length in the same order, with
`output[0] = update(input[0], seed)`, `output[i] = update(input[i],
output[i-1])` for `i >= 1` (the carried value is each previous result),
and the default seed equal to 85.0. -/
theorem claim2_series_chain (df : List Obs) (seed : ℝ) :
    (ffmc_series df seed).length = df.length
    ∧ (0 < df.length →
        (ffmc_series df seed).getD 0 0 = obs_step (df.getD 0 default) seed)
    ∧ (∀ i, i + 1 < df.length →
        (ffmc_series df seed).getD (i + 1) 0
          = obs_step (df.getD (i + 1) default) ((ffmc_series df seed).getD i 0))
    ∧ ffmc_series df = ffmc_series df 85.0 :=
  ⟨ffmc_series_length df seed, ffmc_series_head df seed,
   ffmc_series_succ df seed, rfl⟩

/-- Witness for C2 on a concrete two-row list with seed 90: the second
output equals the update of the second row from the first output. -/
theorem claim2_series_chain_witness :
    (ffmc_series [⟨20, 40, 10, 0⟩, ⟨15, 60, 5, 2⟩] 90).getD 1 0
      = obs_step (([⟨20, 40, 10, 0⟩, ⟨15, 60, 5, 2⟩] : List Obs).getD 1 default)
          ((ffmc_series [⟨20, 40, 10, 0⟩, ⟨15, 60, 5, 2⟩] 90).getD 0 0)
    ∧ (ffmc_series [⟨20, 40, 10, 0⟩, ⟨15, 60, 5, 2⟩] 90).getD 0 0
      = obs_step (([⟨20, 40, 10, 0⟩, ⟨15, 60, 5, 2⟩] : List Obs).getD 0 default) 90 :=
  ⟨(claim2_series_chain [⟨20, 40, 10, 0⟩, ⟨15, 60, 5, 2⟩] 90).2.2.1 0 (by simp),
   (claim2_series_chain [⟨20, 40, 10, 0⟩, ⟨15, 60, 5, 2⟩] 90).2.1 (by simp)⟩

/-! ### C3: the rain stage -/

/-- C3.  If `r > 0.5` the rain stage sets `rf = r - 0.5` and returns the
Van Wagner absorption value
`po + 42.5*rf*exp(-100/(251-po))*(1-exp(-6.93/rf)) + 0.0015*(po-150)^2*sqrt(rf)`
clamped so that the result is at most 250; if `r <= 0.5` it returns `po`
unchanged. -/
theorem claim3_rain_stage (r po : ℝ) :
    (0.5 < r →
      rain_mo r po
        = min (po + 42.5 * (r - 0.5) * Real.exp (-100 / (251 - po))
              * (1 - Real.exp (-6.93 / (r - 0.5)))
            + 0.0015 * (po - 150) ^ 2 * Real.sqrt (r - 0.5)) 250
      ∧ rain_mo r po ≤ 250)
    ∧ (r ≤ 0.5 → rain_mo r po = po) := by
  refine ⟨fun h => ⟨rain_mo_eq_min po h, ?_⟩, fun h => rain_mo_no_rain po h⟩
  rw [rain_mo_eq_min po h]
  exact min_le_right _ _

/-- Witness for C3 at `r = 1, po = 0` (rain branch) and `r = 0, po = 7`
(dry branch). -/
theorem claim3_rain_stage_witness :
    (rain_mo 1 0
        = min ((0:ℝ) + 42.5 * (1 - 0.5) * Real.exp (-100 / (251 - 0))
              * (1 - Real.exp (-6.93 / (1 - 0.5)))
            + 0.0015 * ((0:ℝ) - 150) ^ 2 * Real.sqrt (1 - 0.5)) 250
      ∧ rain_mo 1 0 ≤ 250)
    ∧ rain_mo 0 7 = 7 :=
  ⟨(claim3_rain_stage 1 0).1 (by norm_num), (claim3_rain_stage 0 7).2 (by norm_num)⟩

/-! ### C6: the boundary `mo = ed` takes the wetting branch -/

/-- C6.  At the branch boundary `mo = ed` the drying condition `mo < ed`
fails, so `_ffmc_one_step`'s stage 4 takes the wetting branch:
`m = ew + (mo - ew) * 10^(-kw)` with the wetting-branch `kl`/`kw`. -/
theorem claim6_boundary_wetting (rh t w mo : ℝ) (h : mo = ed_of rh t) :
    m_stage mo rh t w
      = ew_of rh t + (mo - ew_of rh t) * (10 : ℝ) ^ (-(kw_of (kl_wet rh w) t)) := by
  subst h
  unfold m_stage
  rw [if_neg (lt_irrefl _)]

/-- Witness for C6 at `rh = 40, t = 15, w = 5, mo = ed_of 40 15`. -/
theorem claim6_boundary_wetting_witness :
    m_stage (ed_of 40 15) 40 15 5
      = ew_of 40 15 + (ed_of 40 15 - ew_of 40 15)
          * (10 : ℝ) ^ (-(kw_of (kl_wet 40 5) 15)) :=
  claim6_boundary_wetting 40 15 5 (ed_of 40 15) rfl

/-! ### C7: the humidity clamp -/

/-- C7.  Relative humidity is clamped to [0, 100] before the
drying/wetting equilibria: for any `t`, `w`, `r`, `ffmc_prev`, an `rh`
at or above 100 gives the same update as `rh = 100`, and an `rh` at or
below 0 gives the same update as `rh = 0`. -/
theorem claim7_humidity_clamp (t w r ff rh : ℝ) :
    (100 ≤ rh → _ffmc_one_step t rh w r ff = _ffmc_one_step t 100 w r ff)
    ∧ (rh ≤ 0 → _ffmc_one_step t rh w r ff = _ffmc_one_step t 0 w r ff) := by
  constructor
  · intro h
    unfold _ffmc_one_step
    rw [clamp_rh_of_ge h, clamp_rh_of_ge (le_refl 100)]
  · intro h
    unfold _ffmc_one_step
    rw [clamp_rh_of_le h, clamp_rh_of_le (le_refl 0)]

/-- Witness for C7: the spec's concrete instance
`update(t=20, rh=150, w=5, r=0, ffmc_prev=85) = update(t=20, rh=100, ...)`,
plus the low-side clamp at `rh = -5`. -/
theorem claim7_humidity_clamp_witness :
    _ffmc_one_step 20 150 5 0 85 = _ffmc_one_step 20 100 5 0 85
    ∧ _ffmc_one_step 20 (-5) 5 0 85 = _ffmc_one_step 20 0 5 0 85 :=
  ⟨(claim7_humidity_clamp 20 5 0 85 150).1 (by norm_num),
   (claim7_humidity_clamp 20 5 0 85 (-5)).2 (by norm_num)⟩

/-! ### C8: the empty series -/

/-- C8.  `ffmc_series` on an empty observation list performs zero steps and
returns the empty list, for any seed. -/
theorem claim8_empty_series (seed : ℝ) :
    ffmc_series [] seed = [] ∧ (ffmc_series [] seed).length = 0 :=
  ⟨rfl, rfl⟩

/-! ### C9: no vanishing denominators under the stated precondition -/

/-- C9.  Whenever `r > 0.5` the rain divisor `rf = r - 0.5` is strictly
positive, and for `ffmc_prev` in [0, 101] both denominators
`59.5 + ffmc_prev` and `251 - po` are strictly positive. -/
theorem claim9_no_division_by_zero (r ff : ℝ) :
    (0.5 < r → 0 < r - 0.5)
    ∧ (0 ≤ ff → ff ≤ 101 → 0 < 59.5 + ff ∧ 0 < 251 - po_of ff) := by
  refine ⟨fun h => by linarith, fun h0 h101 => ⟨by linarith, ?_⟩⟩
  have hd : (0:ℝ) < 59.5 + ff := by linarith
  have hpo : po_of ff < 251 := by
    unfold po_of
    rw [div_lt_iff₀ hd]
    nlinarith
  linarith

/-- Witness for C9 at `r = 1`, `ffmc_prev = 85`. -/
theorem claim9_no_division_by_zero_witness :
    (0 < (1:ℝ) - 0.5) ∧ (0 < 59.5 + (85:ℝ) ∧ 0 < 251 - po_of 85) :=
  ⟨(claim9_no_division_by_zero 1 85).1 (by norm_num),
   (claim9_no_division_by_zero 1 85).2 (by norm_num) (by norm_num)⟩

/-! ### C5: monotone rain effect -/

/-- C5.  Holding everything else fixed, the post-rain moisture `mo` is
non-decreasing in `r` above the 0.5 threshold, and (for a physical
previous FFMC, here `ffmc_prev >= 0`, which keeps `po < 250`) strictly
greater than the no-rain value `po`; in particular at
`t=20, rh=45, w=10, ffmc_prev=85` the update with `r=5` differs from the
update with `r=0`. -/
theorem claim5_rain_monotone (ff r1 r2 : ℝ) (hff : 0 ≤ ff) (h1 : 0.5 < r1)
    (h12 : r1 ≤ r2) :
    rain_mo r1 (po_of ff) ≤ rain_mo r2 (po_of ff)
    ∧ po_of ff < rain_mo r1 (po_of ff)
    ∧ _ffmc_one_step 20 45 10 5 85 ≠ _ffmc_one_step 20 45 10 0 85 := by
  have hpo : po_of ff < 250 := by
    unfold po_of
    rw [div_lt_iff₀ (by linarith : (0:ℝ) < 59.5 + ff)]
    nlinarith
  exact ⟨rain_mo_mono h1 h12, lt_rain_mo h1 hpo, concrete_rain_effect⟩

/-- Witness for C5 at `ffmc_prev = 85`, `r1 = 1`, `r2 = 2`. -/
theorem claim5_rain_monotone_witness :
    rain_mo 1 (po_of 85) ≤ rain_mo 2 (po_of 85)
    ∧ po_of 85 < rain_mo 1 (po_of 85)
    ∧ _ffmc_one_step 20 45 10 5 85 ≠ _ffmc_one_step 20 45 10 0 85 :=
  claim5_rain_monotone 85 1 2 (by norm_num) (by norm_num) (by norm_num)

/-! ### C4: structure of the wetting branch -/

/-- Spec-claimed variant of `ew` (not the code): `ed`'s shape with `ew`'s
constants, but with `rh` replaced by `100 - rh` inside the exponential
term, as the claim's words "with rh replaced by 100 - rh in the exponent
term" describe under the reading "exponent term = the `exp((rh-100)/10)`
term". -/
noncomputable def ew_spec_exp_sub (rh t : ℝ) : ℝ :=
  0.618 * rh ^ (0.753 : ℝ) + 10 * Real.exp (((100 - rh) - 100) / 10)
    + 0.18 * (21.1 - t) * (1 - Real.exp (-0.115 * rh))

/-- Spec-claimed variant of `ew` (not the code): as above but under the
reading "exponent term = the power term `rh ** 0.753`", giving
`(100 - rh) ** 0.753`. -/
noncomputable def ew_spec_pow_sub (rh t : ℝ) : ℝ :=
  0.618 * (100 - rh) ^ (0.753 : ℝ) + 10 * Real.exp ((rh - 100) / 10)
    + 0.18 * (21.1 - t) * (1 - Real.exp (-0.115 * rh))

/-- Counterexample for C4: at `rh = 0, t = 21.1` the code's `ew` equals
`10 * exp(-10)`, while any `rh -> 100 - rh` substitution in an exponent
term of `ew` gives a different value — so `ew` is *not* obtained from the
`ed` shape by substituting `100 - rh` in the exponent term. -/
theorem claim4_counterexample :
    ew_of 0 21.1 ≠ ew_spec_exp_sub 0 21.1 ∧ ew_of 0 21.1 ≠ ew_spec_pow_sub 0 21.1 := by
  have h0 : (0 : ℝ) ^ (0.753 : ℝ) = 0 := Real.zero_rpow (by norm_num)
  have hval : ew_of 0 21.1 = 10 * Real.exp (-10) := by
    unfold ew_of
    rw [h0]
    norm_num
  constructor
  · rw [hval]
    have hrhs : ew_spec_exp_sub 0 21.1 = 10 := by
      unfold ew_spec_exp_sub
      rw [h0]
      norm_num [Real.exp_zero]
    rw [hrhs]
    have hlt : Real.exp (-10) < 1 := Real.exp_lt_one_iff.2 (by norm_num)
    intro hcontra
    nlinarith [hlt]
  · rw [hval]
    have hgt : 0 < 0.618 * (100 : ℝ) ^ (0.753 : ℝ) :=
      mul_pos (by norm_num) (Real.rpow_pos_of_pos (by norm_num) _)
    have hrhs : ew_spec_pow_sub 0 21.1
        = 0.618 * (100 : ℝ) ^ (0.753 : ℝ) + 10 * Real.exp (-10) := by
      unfold ew_spec_pow_sub
      norm_num
    rw [hrhs]
    intro hcontra
    nlinarith [hgt]

/-- C4 (amended).  In the wetting branch (`mo >= ed`) the code computes
`ew` with the same `rh` dependence as `ed` and only different calibration
constants (0.618/0.753/10 in place of 0.942/0.679/11); the
`100 - rh`-for-`rh` substitution appears instead in the wetting-branch
rate constant, `kl_wet rh w = kl_dry (100 - rh) w`; and
`m = ew + (mo - ew) * 10^(-kw)`. -/
theorem claim4_amended_wetting_structure (rh t w mo : ℝ) :
    kl_wet rh w = kl_dry (100 - rh) w
    ∧ ew_of rh t
        = 0.618 * rh ^ (0.753 : ℝ) + 10 * Real.exp ((rh - 100) / 10)
          + 0.18 * (21.1 - t) * (1 - Real.exp (-0.115 * rh))
    ∧ (¬ mo < ed_of rh t →
        m_stage mo rh t w
          = ew_of rh t + (mo - ew_of rh t) * (10 : ℝ) ^ (-(kw_of (kl_wet rh w) t))) := by
  refine ⟨rfl, rfl, fun h => ?_⟩
  unfold m_stage
  rw [if_neg h]

/-- Witness for the amended C4 at `rh = 50, t = 20, w = 10, mo = ed_of 50 20`. -/
theorem claim4_amended_wetting_structure_witness :
    kl_wet 50 10 = kl_dry (100 - 50) 10
    ∧ m_stage (ed_of 50 20) 50 20 10
      = ew_of 50 20 + (ed_of 50 20 - ew_of 50 20)
          * (10 : ℝ) ^ (-(kw_of (kl_wet 50 10) 20)) :=
  ⟨(claim4_amended_wetting_structure 50 20 10 (ed_of 50 20)).1,
   (claim4_amended_wetting_structure 50 20 10 (ed_of 50 20)).2.2 (lt_irrefl _)⟩

/-! ### C10: no invalid-input rejection for negative wind or rain -/

/-- C10.  Neither `_ffmc_one_step` nor `ffmc_series` validates wind speed
or rainfall: with `w < 0` or `r < 0` the update still produces its clamped
numeric result in [0, 101] (the `sqrt(w)` term is evaluated on the
negative argument rather than rejected), and the series still produces one
output per row — there is no rejection branch anywhere. -/
theorem claim10_no_input_validation (t rh w r ff seed : ℝ) (df : List Obs)
    (h : w < 0 ∨ r < 0) :
    (0 ≤ _ffmc_one_step t rh w r ff ∧ _ffmc_one_step t rh w r ff ≤ 101)
    ∧ (ffmc_series df seed).length = df.length :=
  ⟨⟨le_max_right _ _, max_le (min_le_right _ _) (by norm_num)⟩,
   ffmc_series_length df seed⟩

/-- Witness for C10 at `w = -3`, `r = -1` and a one-row list carrying the
same negative readings. -/
theorem claim10_no_input_validation_witness :
    (0 ≤ _ffmc_one_step 20 50 (-3) (-1) 85 ∧ _ffmc_one_step 20 50 (-3) (-1) 85 ≤ 101)
    ∧ (ffmc_series [⟨20, 50, -3, -1⟩] 85).length
        = ([⟨20, 50, -3, -1⟩] : List Obs).length :=
  claim10_no_input_validation 20 50 (-3) (-1) 85 85 [⟨20, 50, -3, -1⟩]
    (Or.inl (by norm_num))

end FFMC
